import Mathlib

/-!
# prosu-go: route handlers of the Twitter handshake and of the settings form

Shallow embedding of `routeTwitter.go` (`redirectToTwitter`, `obtainAccessToken`,
`getUserInfo`) and of `updateSettings` from `routeSettings.go`.

A handler is a pure function from the collaborators (`TwitterEnv`, `SettingsEnv`) and
the request (`Request`) to a `Result`: the response written, the session object
as the handler leaves it in memory, and the ordered trace of the calls made to the
collaborators and of the writes to the session object.  Go pointers that the handlers dereference are `Option`s (`none` is
the nil pointer) and a failed type assertion or nil dereference is the response
`Response.panic`.  Calls to the logger and to `captureError` are not part of the trace.
-/

namespace Prosu

/-! ## Data model -/

/-- The `oauth.RequestToken` of the OAuth library: a token and its secret. -/
structure RequestToken where
  Token : String
  Secret : String
  deriving DecidableEq, Repr

/-- The `oauth.AccessToken` of the OAuth library (the fields the handlers read). -/
structure AccessToken where
  Token : String
  Secret : String
  deriving DecidableEq, Repr

/-- The type stored under "twitter_token": a struct with the one field `Token`,
a `*oauth.RequestToken` (`none` is the nil pointer). -/
structure sessionTokenStorer where
  Token : Option RequestToken
  deriving DecidableEq, Repr

/-- A `bson.ObjectId`: a string of raw bytes. -/
structure ObjectId where
  bytes : List Nat
  deriving DecidableEq, Repr

/-- One lower-case hexadecimal digit. -/
def hexDigit (n : Nat) : Char :=
  "0123456789abcdef".toList.getD (n % 16) '0'

/-- The method `ObjectId.Hex`: two hexadecimal digits per byte. -/
def ObjectId.Hex (id : ObjectId) : String :=
  String.mk (id.bytes.flatMap fun b => [hexDigit (b % 256 / 16), hexDigit (b % 256 % 16)])

/-- The dynamically typed values the handlers keep in `session.Values`. -/
inductive Value where
  | tokenStorer (s : sessionTokenStorer)
  | bool (b : Bool)
  | str (s : String)
  deriving DecidableEq, Repr

/-- The map `session.Values`; `none` is the nil interface read from an absent key. -/
abbrev Values := String → Option Value

/-- The assignment `m[k] = v` on a map. -/
def Values.set (m : Values) (k : String) (v : Value) : Values :=
  fun j => if j = k then some v else m j

/-- A `sessions.Session`: the values set by the handlers and the flash queues, by
flash key (the session library keeps each queue in `Values` under its key). -/
structure Session where
  Values : Values
  Flashes : String → List String

/-- The method `Session.AddFlash(value, key)`: appends to the queue of `key`. -/
def Session.AddFlash (s : Session) (value key : String) : Session :=
  { s with Flashes := fun j => if j = key then s.Flashes j ++ [value] else s.Flashes j }

/-- The assignment `session.Values[k] = v`. -/
def Session.setValue (s : Session) (k : String) (v : Value) : Session :=
  { s with Values := s.Values.set k v }

/-- The profile returned by the Twitter API (`anaconda.User`), passed on unread. -/
structure TwitterUser where
  IdStr : String
  ScreenName : String
  deriving DecidableEq, Repr

/-- The embedded `bongo.DocumentBase` of a stored document. -/
structure DocumentBase where
  Id : ObjectId
  Created : Int
  Modified : Int
  deriving DecidableEq, Repr

/-- The `OsuSettings` of a user. -/
structure OsuSettings where
  Enabled : Bool
  Player : ObjectId
  Mode : Int
  deriving DecidableEq, Repr

/-- The `User` document (the fields the handlers read or write). -/
structure User where
  base : DocumentBase
  OsuSettings : OsuSettings
  deriving DecidableEq, Repr

/-- The method `GetId` of a document. -/
def User.GetId (u : User) : ObjectId := u.base.Id

/-- The list of saved requests of one game mode (`OsuModeChecks`). -/
structure OsuModeChecks where
  Checks : List ObjectId
  deriving DecidableEq, Repr

/-- The four lists of an osu! player (`OsuModes`). -/
structure OsuModes where
  Standard : OsuModeChecks
  Mania : OsuModeChecks
  Taiko : OsuModeChecks
  CTB : OsuModeChecks
  deriving DecidableEq, Repr

/-- The `OsuPlayer` document. -/
structure OsuPlayer where
  base : DocumentBase
  UserID : String
  PlayerName : String
  LastChecked : Int
  Modes : OsuModes
  deriving DecidableEq, Repr

/-- The method `GetId` of a document. -/
def OsuPlayer.GetId (p : OsuPlayer) : ObjectId := p.base.Id

/-- A 64-bit float, by its bit pattern; the handlers only copy such values. -/
structure F64 where
  bits : Nat
  deriving DecidableEq, Repr

/-- The player statistics returned by the osu! API (`osuapi.User`), the fields
read by `updateSettings`. -/
structure ApiUser where
  UserID : String
  Username : String
  Count50 : Int
  Count100 : Int
  Count300 : Int
  CountRankSS : Int
  CountRankSSH : Int
  CountRankS : Int
  CountRankSH : Int
  CountRankA : Int
  Playcount : Int
  RankedScore : Int
  TotalScore : Int
  PP : F64
  GlobalRank : Int
  CountryRank : Int
  Country : String
  Level : F64
  Accuracy : F64
  deriving DecidableEq, Repr

/-- The struct `requestDataCounts`. -/
structure requestDataCounts where
  Count50s : Int
  Count100s : Int
  Count300s : Int
  SS : Int
  S : Int
  A : Int
  Plays : Int
  deriving DecidableEq, Repr

/-- The struct `requestDataScores`. -/
structure requestDataScores where
  Ranked : Int
  Total : Int
  deriving DecidableEq, Repr

/-- The struct `requestDataPP`. -/
structure requestDataPP where
  Raw : F64
  Rank : Int
  CountryRank : Int
  deriving DecidableEq, Repr

/-- The struct `OsuRequestData`. -/
structure OsuRequestData where
  PlayerID : String
  PlayerName : String
  Counts : requestDataCounts
  Scores : requestDataScores
  PP : requestDataPP
  Country : String
  Level : F64
  Accuracy : F64
  deriving DecidableEq, Repr

/-- The `OsuRequest` document. -/
structure OsuRequest where
  base : DocumentBase
  OsuPlayer : ObjectId
  DateChecked : Int
  Data : OsuRequestData
  deriving DecidableEq, Repr

/-- The method `GetId` of a document. -/
def OsuRequest.GetId (q : OsuRequest) : ObjectId := q.base.Id

/-- A document handed to the database. -/
inductive Document where
  | user (u : User)
  | osuPlayer (p : OsuPlayer)
  | osuRequest (q : OsuRequest)
  deriving DecidableEq, Repr

/-- The query of the request URL (`url.Values`): the values given for each key. -/
abbrev Query := String → List String

/-- The method `url.Values.Get`: the first value of the key, or the empty string. -/
def Query.Get (q : Query) (key : String) : String := (q key).headD ""

/-- What a handler wrote to the `http.ResponseWriter`. -/
inductive Response where
  | redirect (url : String) (code : Nat)
  | routeError (message err reqID : String) (code : Nat)
  | nothing
  | panic (what : String)
  deriving DecidableEq, Repr

/-- The request as the middleware hands it to a handler: the context values
"session_error", "session", "isAuthenticated", the request identifier, and the
query parameters of the URL. -/
structure Request where
  session_error : String
  session : Session
  isAuthenticated : Bool
  reqID : String
  query : Query

/-- A step of a handler that is visible outside it: a call to a collaborator with its
arguments, or a write to the session object. -/
inductive Event where
  | setValue (key : String) (v : Value)
  | AddFlash (value key : String)
  | GetRequestTokenAndUrl (callbackUrl : String)
  | AuthorizeToken (rtoken : Option RequestToken) (verificationCode : String)
  | GetSelf (token secret consumerKey consumerSecret : String) (values : List (String × String))
  | findOrCreateUser (twitterUser : TwitterUser) (accessToken : Option AccessToken)
  | sessionSave (s : Session) (ok : Bool)
  | GetUser (u m : String)
  | FindOne (collection userid : String)
  | Save (collection : String) (doc : Document)

/-- The outcome of a handler. -/
structure Result where
  response : Response
  session : Session
  trace : List Event

/-- The collaborators of the Twitter handlers.  Every function returns either the
error (its message) or the values returned with a nil error. -/
structure TwitterEnv where
  ENVIRONMENT : String
  domain : String
  consumerKey : String
  consumerSecret : String
  GetRequestTokenAndUrl : String → Except String (Option RequestToken × String)
  AuthorizeToken : Option RequestToken → String → Except String (Option AccessToken)
  GetSelf : String → String → String → String → List (String × String) → Except String TwitterUser
  findOrCreateUser : TwitterUser → Option AccessToken → Except String (Option User)
  sessionSave : Session → Option String

/-! ## routeTwitter.go -/

/-- The callback URL handed to the provider by `redirectToTwitter`. -/
def callbackUrl (env : TwitterEnv) : String :=
  let protocol := if env.ENVIRONMENT ≠ "production" then "http://" else "https://"
  protocol ++ env.domain ++ "/connect/twitter/callback"

/-- The handler `redirectToTwitter`. -/
def redirectToTwitter (env : TwitterEnv) (r : Request) : Result :=
  if r.session_error ≠ "" then
    ⟨.routeError "Error getting user session" r.session_error r.reqID 500, r.session, []⟩
  else if r.isAuthenticated then
    ⟨.redirect "/" 302, r.session, []⟩
  else
    match env.GetRequestTokenAndUrl (callbackUrl env) with
    | .error err =>
      ⟨.routeError "Error generating Twitter redirect URL" err r.reqID 500, r.session,
        [.GetRequestTokenAndUrl (callbackUrl env)]⟩
    | .ok (token, url) =>
      let session := r.session.setValue "twitter_token" (.tokenStorer ⟨token⟩)
      match env.sessionSave session with
      | some err =>
        ⟨.routeError "Error saving session" err r.reqID 500, session,
          [.GetRequestTokenAndUrl (callbackUrl env),
            .setValue "twitter_token" (.tokenStorer ⟨token⟩), .sessionSave session false]⟩
      | none =>
        ⟨.redirect url 302, session,
          [.GetRequestTokenAndUrl (callbackUrl env),
            .setValue "twitter_token" (.tokenStorer ⟨token⟩), .sessionSave session true]⟩

/-- The function `getUserInfo`: the profile of the owner of the access token, with
the trace of its call; `none` when the nil access token is dereferenced. -/
def getUserInfo (env : TwitterEnv) (accessToken : Option AccessToken) :
    Option (Except String TwitterUser × List Event) :=
  match accessToken with
  | none => none
  | some a =>
    some (env.GetSelf a.Token a.Secret env.consumerKey env.consumerSecret [("skip_status", "true")],
      [.GetSelf a.Token a.Secret env.consumerKey env.consumerSecret [("skip_status", "true")]])

/-- The second half of `obtainAccessToken`, after the validation of the callback:
the exchange of the request token, the profile fetch, user resolution, and the
marking and saving of the session. -/
def exchangeAndLogin (env : TwitterEnv) (r : Request)
    (twitterRequestToken : Option RequestToken) (verificationCode : String) : Result :=
  let t1 : List Event := [.AuthorizeToken twitterRequestToken verificationCode]
  match env.AuthorizeToken twitterRequestToken verificationCode with
  | .error err => ⟨.routeError "Error obtaining access token" err r.reqID 500, r.session, t1⟩
  | .ok twitterAccessToken =>
    match getUserInfo env twitterAccessToken with
    | none => ⟨.panic "nil pointer dereference", r.session, t1⟩
    | some (.error err, t2) =>
      ⟨.routeError "Error getting Twitter user info" err r.reqID 500, r.session, t1 ++ t2⟩
    | some (.ok twitterUser, t2) =>
      let t3 : List Event := t1 ++ t2 ++ [.findOrCreateUser twitterUser twitterAccessToken]
      match env.findOrCreateUser twitterUser twitterAccessToken with
      | .error err =>
        ⟨.routeError "Error finding or creating user" err r.reqID 500, r.session, t3⟩
      | .ok none => ⟨.panic "nil pointer dereference", r.session, t3⟩
      | .ok (some user) =>
        let session := (r.session.setValue "isAuthenticated" (.bool true)).setValue
          "user_id" (.str user.GetId.Hex)
        let t4 : List Event := t3 ++ [.setValue "isAuthenticated" (.bool true),
          .setValue "user_id" (.str user.GetId.Hex)]
        match env.sessionSave session with
        | some err =>
          ⟨.routeError "Error saving session after being logged in" err r.reqID 500,
            session, t4 ++ [.sessionSave session false]⟩
        | none => ⟨.redirect "/" 302, session, t4 ++ [.sessionSave session true]⟩

/-- The handler `obtainAccessToken`. -/
def obtainAccessToken (env : TwitterEnv) (r : Request) : Result :=
  if r.session_error ≠ "" then
    ⟨.routeError "Error getting user session" r.session_error r.reqID 500, r.session, []⟩
  else if r.isAuthenticated then
    ⟨.redirect "/" 302, r.session, []⟩
  else
    match r.session.Values "twitter_token" with
    | none =>
      ⟨.routeError "No token detected in your session" "User Error" r.reqID 400, r.session, []⟩
    | some (.tokenStorer storer) =>
      let twitterRequestToken := storer.Token
      let verificationCode := r.query.Get "oauth_verifier"
      let twitterTokenKey := r.query.Get "oauth_token"
      if verificationCode = "" then
        ⟨.routeError "No oauth_verifier returned in callback" "User Error" r.reqID 400,
          r.session, []⟩
      else if twitterTokenKey = "" then
        ⟨.routeError "No oauth_token returned in callback" "User Error" r.reqID 400,
          r.session, []⟩
      else
        match twitterRequestToken with
        | none => ⟨.panic "nil pointer dereference", r.session, []⟩
        | some rtoken =>
          if twitterTokenKey ≠ rtoken.Token then
            ⟨.routeError "Twitter oauth_token mismatch" "User Error" r.reqID 400, r.session, []⟩
          else exchangeAndLogin env r twitterRequestToken verificationCode
    | some _ => ⟨.panic "interface conversion", r.session, []⟩

/-! ## routeSettings.go -/

/-- The table `allOsuModes`: the name of the game mode of each mode number. -/
def allOsuModes : List String := ["osu!standard", "osu!taiko", "osu!catch", "osu!mania"]

/-- The function `strconv.Atoi` on 64-bit integers: an optional sign and one or more
decimal digits, the value in the range of `int`; an error otherwise. -/
def Atoi (s : String) : Except String Int :=
  let cs := s.toList
  let neg := cs.head? = some '-'
  let ds := if cs.head? = some '-' ∨ cs.head? = some '+' then cs.tail else cs
  if ds = [] then .error "invalid syntax"
  else if ds.all Char.isDigit then
    let n : Nat := ds.foldl (fun a c => a * 10 + (c.toNat - 48)) 0
    if neg then (if n ≤ 2 ^ 63 then .ok (-(n : Int)) else .error "value out of range")
    else (if n < 2 ^ 63 then .ok (n : Int) else .error "value out of range")
  else .error "invalid syntax"

/-- The function `strconv.Itoa`: the decimal string of an integer. -/
def Itoa (n : Int) : String := toString n

/-- Addition of two values of type `int`, wrapping at 64 bits. -/
def addInt (a b : Int) : Int := (a + b + 2 ^ 63) % 2 ^ 64 - 2 ^ 63

/-- The outcome of `FindOne` on the player collection. -/
inductive FindResult where
  | found (p : OsuPlayer)
  | DocumentNotFound
  | otherError (err : String)
  deriving DecidableEq, Repr

/-- The request of `updateSettings`: the context values "user_error" and "user" (a
`*User`) and the outcome of `r.ParseForm()` (the parsed form, or the error). -/
structure SettingsRequest extends Request where
  user_error : String
  user : Option User
  ParseForm : Except String Query

/-- The collaborators of `updateSettings`.  `Save n c d` is the outcome of the call
numbered `n` (from 0) of `Save` on collection `c` with document `d`: the error, if
any, and the `DocumentBase` of the document as `Save` leaves it (the library sets
the identifier of a new document and its time stamps).  `Now n` is the Unix time
read by the call numbered `n` of `time.Now`. -/
structure SettingsEnv where
  GetUser : String → String → Except String ApiUser
  FindOne : String → String → FindResult
  Save : Nat → String → Document → Option String × DocumentBase
  Now : Nat → Int
  sessionSave : Session → Option String

/-- The outcome of `updateSettings`: as `Result`, with the value of the local variable
`user` when the handler returns. -/
structure SettingsResult extends Result where
  user : User

/-- The zero value of `DocumentBase`. -/
def DocumentBase.zero : DocumentBase := ⟨⟨[]⟩, 0, 0⟩

/-- The zero value of `User` (`var user User`). -/
def User.zero : User := ⟨DocumentBase.zero, ⟨false, ⟨[]⟩, 0⟩⟩

/-- The exit taken on each form error: add the flash under "settings_error", save the
session ignoring the outcome, and redirect to the settings page. -/
def flashExit (env : SettingsEnv) (session : Session) (message : String)
    (trace : List Event) (user : User) : SettingsResult :=
  let session1 := session.AddFlash message "settings_error"
  ⟨⟨.redirect "/settings" 302, session1,
    trace ++ [.AddFlash message "settings_error",
      .sessionSave session1 (env.sessionSave session1).isNone]⟩, user⟩

/-- The request record built from the statistics of the player. -/
def newOsuRequest (env : SettingsEnv) (dbOsuPlayer : OsuPlayer) (osuPlayer : ApiUser) :
    OsuRequest :=
  { base := DocumentBase.zero
    OsuPlayer := dbOsuPlayer.GetId
    DateChecked := env.Now 1
    Data :=
      { PlayerID := osuPlayer.UserID
        PlayerName := osuPlayer.Username
        Counts :=
          { Count50s := osuPlayer.Count50
            Count100s := osuPlayer.Count100
            Count300s := osuPlayer.Count300
            SS := addInt osuPlayer.CountRankSS osuPlayer.CountRankSSH
            S := addInt osuPlayer.CountRankS osuPlayer.CountRankSH
            A := osuPlayer.CountRankA
            Plays := osuPlayer.Playcount }
        Scores := { Ranked := osuPlayer.RankedScore, Total := osuPlayer.TotalScore }
        PP := { Raw := osuPlayer.PP, Rank := osuPlayer.GlobalRank,
                CountryRank := osuPlayer.CountryRank }
        Country := osuPlayer.Country
        Level := osuPlayer.Level
        Accuracy := osuPlayer.Accuracy } }

/-- The chain `if modeNumber == 0 ... else if modeNumber == 3` that appends the
identifier of the saved request to one list of the player. -/
def appendCheck (p : OsuPlayer) (modeNumber : Int) (id : ObjectId) : OsuPlayer :=
  if modeNumber = 0 then
    { p with Modes := { p.Modes with Standard := ⟨p.Modes.Standard.Checks ++ [id]⟩ } }
  else if modeNumber = 1 then
    { p with Modes := { p.Modes with Mania := ⟨p.Modes.Mania.Checks ++ [id]⟩ } }
  else if modeNumber = 2 then
    { p with Modes := { p.Modes with Taiko := ⟨p.Modes.Taiko.Checks ++ [id]⟩ } }
  else if modeNumber = 3 then
    { p with Modes := { p.Modes with CTB := ⟨p.Modes.CTB.Checks ++ [id]⟩ } }
  else p

/-- The branch of `updateSettings` for a player that is not in the database yet. -/
def newPlayer (env : SettingsEnv) (session : Session) (user : User) (modeNumber : Int)
    (osuPlayer : ApiUser) (t0 : List Event) : SettingsResult :=
  let p0 : OsuPlayer :=
    { base := DocumentBase.zero
      UserID := osuPlayer.UserID
      PlayerName := osuPlayer.Username
      LastChecked := env.Now 0
      Modes := { Standard := ⟨[]⟩, Mania := ⟨[]⟩, Taiko := ⟨[]⟩, CTB := ⟨[]⟩ } }
  let t1 := t0 ++ [.Save "osuplayermodels" (.osuPlayer p0)]
  match env.Save 0 "osuplayermodels" (.osuPlayer p0) with
  | (some _, _) => flashExit env session "Error saving new osu! player" t1 user
  | (none, b1) =>
    let p1 : OsuPlayer := { p0 with base := b1 }
    let q0 := newOsuRequest env p1 osuPlayer
    let t2 := t1 ++ [.Save "osurequestmodels" (.osuRequest q0)]
    match env.Save 1 "osurequestmodels" (.osuRequest q0) with
    | (some _, _) =>
      flashExit env session "Error saving osu! data request to database" t2 user
    | (none, b2) =>
      let q1 : OsuRequest := { q0 with base := b2 }
      let p2 := appendCheck p1 modeNumber q1.GetId
      let t3 := t2 ++ [.Save "osuplayermodels" (.osuPlayer p2)]
      match env.Save 2 "osuplayermodels" (.osuPlayer p2) with
      | (some _, _) =>
        flashExit env session "Error re-saving osu! player to database" t3 user
      | (none, b3) =>
        let p3 : OsuPlayer := { p2 with base := b3 }
        let user1 : User :=
          { user with OsuSettings := { user.OsuSettings with Player := p3.GetId, Mode := modeNumber } }
        let t4 := t3 ++ [.Save "osuplayermodels" (.osuPlayer p3)]
        match env.Save 3 "osuplayermodels" (.osuPlayer p3) with
        | (some _, _) => flashExit env session "Error saving final settings" t4 user1
        | (none, _) => ⟨⟨.nothing, session, t4⟩, user1⟩

/-- The handler `updateSettings`. -/
def updateSettings (env : SettingsEnv) (r : SettingsRequest) : SettingsResult :=
  if r.session_error ≠ "" then
    ⟨⟨.routeError "Error getting user session" r.session_error r.reqID 500, r.session, []⟩,
      User.zero⟩
  else if r.isAuthenticated = false then
    ⟨⟨.redirect "/connect/twitter" 302, r.session, []⟩, User.zero⟩
  else if r.user_error ≠ "" then
    ⟨⟨.routeError "Error getting user account info" r.user_error r.reqID 500, r.session, []⟩,
      User.zero⟩
  else
    match r.user with
    | none => ⟨⟨.panic "nil pointer dereference", r.session, []⟩, User.zero⟩
    | some user =>
      if user.OsuSettings.Enabled = false then
        ⟨⟨.redirect "/settings" 302, r.session, []⟩, user⟩
      else
        match r.ParseForm with
        | .error _ => flashExit env r.session "Error parsing form" [] user
        | .ok form =>
          match Atoi (form.Get "game_mode") with
          | .error _ => flashExit env r.session "Invalid mode" [] user
          | .ok modeNumber =>
            if modeNumber < 0 ∨ modeNumber > 3 then
              flashExit env r.session "Invalid mode" [] user
            else
              let playerName := form.Get "osu_username"
              let t0 : List Event := [.GetUser playerName (Itoa modeNumber)]
              match env.GetUser playerName (Itoa modeNumber) with
              | .error _ => flashExit env r.session "Error getting user information" t0 user
              | .ok osuPlayer =>
                let t1 := t0 ++ [.FindOne "osuplayermodels" osuPlayer.UserID]
                match env.FindOne "osuplayermodels" osuPlayer.UserID with
                | .found _ => ⟨⟨.nothing, r.session, t1⟩, user⟩
                | .DocumentNotFound => newPlayer env r.session user modeNumber osuPlayer t1
                | .otherError _ =>
                  flashExit env r.session
                    "Error checking if the user already exists in the database" t1 user

/-- The database writes of a trace, in order: collection and document. -/
def dbWrites : List Event → List (String × Document)
  | [] => []
  | .Save c d :: t => (c, d) :: dbWrites t
  | _ :: t => dbWrites t

/-- Whether an event is a call to the provider client, to the profile fetch or to
user resolution. -/
def Event.isProviderCall : Event → Bool
  | .GetRequestTokenAndUrl _ => true
  | .AuthorizeToken _ _ => true
  | .GetSelf _ _ _ _ _ => true
  | .findOrCreateUser _ _ => true
  | _ => false

/-- Whether an event is a call to the osu! API or to the database. -/
def Event.isApiOrDb : Event → Bool
  | .GetUser _ _ => true
  | .FindOne _ _ => true
  | .Save _ _ => true
  | _ => false

/-- Whether an event is a call to the osu! API. -/
def Event.isGetUser : Event → Bool
  | .GetUser _ _ => true
  | _ => false

/-- Whether an event is neither a save to "usermodels" nor a save of a user record. -/
def Event.notUserSave : Event → Bool
  | .Save _ (.user _) => false
  | .Save c _ => c != "usermodels"
  | _ => true

/-- Whether an event is a call of the token exchange. -/
def Event.isAuthorizeToken : Event → Bool
  | .AuthorizeToken _ _ => true
  | _ => false

/-- Whether an event is a save of the session. -/
def Event.isSessionSave : Event → Bool
  | .sessionSave _ _ => true
  | _ => false

/-- Whether an event is the assignment that marks the session authenticated. -/
def Event.isMark : Event → Bool
  | .setValue key v => key == "isAuthenticated" && v == .bool true
  | _ => false

/-- Whether an event is a write to the session object. -/
def Event.isSessionWrite : Event → Bool
  | .setValue _ _ => true
  | .AddFlash _ _ => true
  | _ => false

/-- Whether the session is marked authenticated. -/
def Session.marked (s : Session) : Prop := s.Values "isAuthenticated" = some (.bool true)

/-! ## Concrete runs -/

/-- A pending request token. -/
def demoToken : RequestToken := ⟨"T", "S"⟩

/-- A user with a three-byte identifier. -/
def demoUser : User := ⟨⟨⟨[1, 171, 16]⟩, 0, 0⟩, ⟨true, ⟨[]⟩, 0⟩⟩

/-- The empty session. -/
def emptySession : Session := ⟨fun _ => none, fun _ => []⟩

/-- Collaborators that all succeed. -/
def demoEnv : TwitterEnv where
  ENVIRONMENT := "production"
  domain := "prosu.example"
  consumerKey := "ck"
  consumerSecret := "cs"
  GetRequestTokenAndUrl := fun _ => .ok (some demoToken, "https://twitter.example/authorize")
  AuthorizeToken := fun _ _ => .ok (some ⟨"A", "AS"⟩)
  GetSelf := fun _ _ _ _ _ => .ok ⟨"7", "player"⟩
  findOrCreateUser := fun _ _ => .ok (some demoUser)
  sessionSave := fun _ => none

/-- Collaborators that all succeed except the session store, whose save fails. -/
def failingSaveEnv : TwitterEnv := { demoEnv with sessionSave := fun _ => some "disk full" }

/-- Collaborators that all succeed, the provider returning a request token whose
`Token` is the empty string. -/
def emptyTokenEnv : TwitterEnv :=
  { demoEnv with
    GetRequestTokenAndUrl := fun _ => .ok (some ⟨"", "S"⟩, "https://twitter.example/authorize") }

/-- A first request of a browser: no session error, not authenticated, empty session. -/
def demoLogin : Request := ⟨"", emptySession, false, "req-1", fun _ => []⟩

/-- The query of a callback with the given verifier and token. -/
def callbackQuery (verifier token : List String) : Query :=
  fun k => if k = "oauth_verifier" then verifier else if k = "oauth_token" then token else []

/-- The callback of the provider on the session left by `demoLogin`. -/
def demoCallback : Request :=
  ⟨"", (redirectToTwitter demoEnv demoLogin).session, false, "req-2", callbackQuery ["v"] ["T"]⟩

/-- The callback on the session left by `demoLogin` under `emptyTokenEnv`, with the
`oauth_token` of the stored request token (the empty string) and a verifier. -/
def emptyTokenCallback : Request :=
  ⟨"", (redirectToTwitter emptyTokenEnv demoLogin).session, false, "req-2",
    callbackQuery ["v"] [""]⟩

/-- A callback with another token than the stored one and no verifier. -/
def noVerifierCallback : Request := { demoCallback with query := callbackQuery [] ["X"] }

/-- A callback with another token than the stored one. -/
def mismatchCallback : Request := { demoCallback with query := callbackQuery ["v"] ["X"] }

/-- A request on an authenticated session that still holds the pending token. -/
def authenticatedCallback : Request := { demoCallback with isAuthenticated := true }

/-- The `DocumentBase` of a document. -/
def Document.base : Document → DocumentBase
  | .user u => u.base
  | .osuPlayer p => p.base
  | .osuRequest q => q.base

/-- A database whose saves succeed: a document without identifier gets one, a
document with an identifier gets a new modification time. -/
def demoSave (n : Nat) (_ : String) (d : Document) : Option String × DocumentBase :=
  (none, if d.base.Id.bytes = [] then ⟨⟨[n + 1]⟩, 100, 100⟩ else { d.base with Modified := 101 })

/-- The statistics of a player. -/
def demoApiUser : ApiUser :=
  { UserID := "2", Username := "peppy", Count50 := 1, Count100 := 2, Count300 := 3,
    CountRankSS := 4, CountRankSSH := 5, CountRankS := 6, CountRankSH := 7, CountRankA := 8,
    Playcount := 9, RankedScore := 10, TotalScore := 11, PP := ⟨0⟩, GlobalRank := 12,
    CountryRank := 13, Country := "AU", Level := ⟨0⟩, Accuracy := ⟨0⟩ }

/-- Collaborators of `updateSettings` for a player that is not in the database. -/
def demoSettingsEnv : SettingsEnv where
  GetUser := fun _ _ => .ok demoApiUser
  FindOne := fun _ _ => .DocumentNotFound
  Save := demoSave
  Now := fun n => 1500000000 + n
  sessionSave := fun _ => none

/-- A form with the given game mode for the player "peppy". -/
def demoForm (mode : String) : Query :=
  fun k => if k = "game_mode" then [mode] else if k = "osu_username" then ["peppy"] else []

/-- A settings request of an authenticated user with tweet posting enabled. -/
def demoSettingsRequest (mode : String) : SettingsRequest :=
  { session_error := "", session := emptySession, isAuthenticated := true, reqID := "req-3",
    query := fun _ => [], user_error := "", user := some demoUser,
    ParseForm := .ok (demoForm mode) }

/-- The list of a player kept for a game mode, by the name of the mode in
`allOsuModes`: Standard for "osu!standard", Taiko for "osu!taiko", CTB for
"osu!catch", Mania for "osu!mania".  This is the naming of the four lists by the
game modes, against which the chain of `appendCheck` is compared. -/
def checksOfModeName (name : String) (modes : OsuModes) : Option OsuModeChecks :=
  if name = "osu!standard" then some modes.Standard
  else if name = "osu!taiko" then some modes.Taiko
  else if name = "osu!catch" then some modes.CTB
  else if name = "osu!mania" then some modes.Mania
  else none

/-- The four lists of a written document, when it is a player record. -/
def playerModes : Document → Option OsuModes
  | .osuPlayer p => some p.Modes
  | _ => none

/-- The four lists of the player record of the third database write of a trace,
the write that follows the appending of the identifier of the saved request. -/
def modesAfterAppend (trace : List Event) : Option OsuModes :=
  ((dbWrites trace)[2]?).bind fun w => playerModes w.2

/-! ## Paths of the handlers -/

/-- The outcomes of `exchangeAndLogin`: the exchange is the first event and the only
call of the exchange; a run either leaves the session untouched without answering
with the redirect home, or every collaborator before the save succeeded and the
session is marked and saved. -/
theorem exchangeAndLogin_cases (env : TwitterEnv) (r : Request) (tok : Option RequestToken)
    (v : String) :
    (∃ t, (exchangeAndLogin env r tok v).trace = .AuthorizeToken tok v :: t ∧
        (∀ e ∈ t, e.isAuthorizeToken = false)) ∧
    (((exchangeAndLogin env r tok v).session = r.session ∧
        (∀ e ∈ (exchangeAndLogin env r tok v).trace, e.isSessionWrite = false) ∧
        (∀ e ∈ (exchangeAndLogin env r tok v).trace, e.isSessionSave = false) ∧
        (∀ err reqID code, (exchangeAndLogin env r tok v).response ≠
          .routeError "Error saving session after being logged in" err reqID code) ∧
        (exchangeAndLogin env r tok v).response ≠ .redirect "/" 302) ∨
      ∃ a tu u, env.AuthorizeToken tok v = .ok (some a) ∧
        env.GetSelf a.Token a.Secret env.consumerKey env.consumerSecret
          [("skip_status", "true")] = .ok tu ∧
        env.findOrCreateUser tu (some a) = .ok (some u) ∧
        (exchangeAndLogin env r tok v).session =
          (r.session.setValue "isAuthenticated" (.bool true)).setValue
            "user_id" (.str u.GetId.Hex) ∧
        (exchangeAndLogin env r tok v).trace = [.AuthorizeToken tok v,
          .GetSelf a.Token a.Secret env.consumerKey env.consumerSecret [("skip_status", "true")],
          .findOrCreateUser tu (some a), .setValue "isAuthenticated" (.bool true),
          .setValue "user_id" (.str u.GetId.Hex),
          .sessionSave (exchangeAndLogin env r tok v).session
            (env.sessionSave (exchangeAndLogin env r tok v).session).isNone] ∧
        ((∃ err, env.sessionSave (exchangeAndLogin env r tok v).session = some err ∧
            (exchangeAndLogin env r tok v).response =
              .routeError "Error saving session after being logged in" err r.reqID 500) ∨
          (env.sessionSave (exchangeAndLogin env r tok v).session = none ∧
            (exchangeAndLogin env r tok v).response = .redirect "/" 302))) := by
  unfold exchangeAndLogin
  cases h1 : env.AuthorizeToken tok v with
  | error err => simp [Event.isSessionWrite, Event.isSessionSave]
  | ok a =>
    cases a with
    | none => simp [getUserInfo, Event.isSessionWrite, Event.isSessionSave]
    | some a =>
      cases h2 : env.GetSelf a.Token a.Secret env.consumerKey env.consumerSecret
          [("skip_status", "true")] with
      | error err =>
        simp [getUserInfo, h2, Event.isSessionWrite, Event.isSessionSave, Event.isAuthorizeToken]
      | ok tu =>
        cases h3 : env.findOrCreateUser tu (some a) with
        | error err =>
          simp [getUserInfo, h2, h3, Event.isSessionWrite, Event.isSessionSave,
            Event.isAuthorizeToken]
        | ok u =>
          cases u with
          | none =>
            simp [getUserInfo, h2, h3, Event.isSessionWrite, Event.isSessionSave,
              Event.isAuthorizeToken]
          | some u =>
            cases h4 : env.sessionSave ((r.session.setValue "isAuthenticated"
                (.bool true)).setValue "user_id" (.str u.GetId.Hex)) with
            | none =>
              simp [getUserInfo, h2, h3, h4, Event.isSessionWrite, Event.isSessionSave,
                Event.isAuthorizeToken]
            | some err =>
              simp [getUserInfo, h2, h3, h4, Event.isSessionWrite, Event.isSessionSave,
                Event.isAuthorizeToken]

/-- The validation of `obtainAccessToken`: a run either stops before the exchange,
leaving the session untouched and the trace empty, or it passed every check and is a
run of `exchangeAndLogin` on the stored token and the returned verifier. -/
theorem obtainAccessToken_cases (env : TwitterEnv) (r : Request) :
    ((obtainAccessToken env r).session = r.session ∧ (obtainAccessToken env r).trace = [] ∧
        (∀ err reqID code, (obtainAccessToken env r).response ≠
          .routeError "Error saving session after being logged in" err reqID code) ∧
        (obtainAccessToken env r).response ≠ .redirect "/" 302) ∨
      ((obtainAccessToken env r).session = r.session ∧ (obtainAccessToken env r).trace = [] ∧
        (obtainAccessToken env r).response = .redirect "/" 302 ∧ r.session_error = "" ∧
        r.isAuthenticated = true) ∨
      ∃ T : RequestToken, r.session_error = "" ∧ r.isAuthenticated = false ∧
        r.session.Values "twitter_token" = some (.tokenStorer ⟨some T⟩) ∧
        r.query.Get "oauth_verifier" ≠ "" ∧ r.query.Get "oauth_token" ≠ "" ∧
        r.query.Get "oauth_token" = T.Token ∧
        obtainAccessToken env r =
          exchangeAndLogin env r (some T) (r.query.Get "oauth_verifier") := by
  unfold obtainAccessToken
  by_cases h1 : r.session_error = ""
  · cases h2 : r.isAuthenticated with
    | true => simp [h1]
    | false =>
      cases h3 : r.session.Values "twitter_token" with
      | none => simp [h1]
      | some val =>
        cases val with
        | bool b => simp [h1]
        | str s => simp [h1]
        | tokenStorer storer =>
          by_cases h4 : r.query.Get "oauth_verifier" = ""
          · simp [h1, h4]
          by_cases h5 : r.query.Get "oauth_token" = ""
          · simp [h1, h4, h5]
          obtain ⟨tok⟩ := storer
          cases tok with
          | none => simp [h1, h4, h5]
          | some T =>
            by_cases h6 : r.query.Get "oauth_token" = T.Token
            · have h7 : T.Token ≠ "" := h6 ▸ h5
              right; right
              exact ⟨T, h1, rfl, rfl, h4, h5, h6, by simp [h1, h4, h6, h7]⟩
            · simp [h1, h4, h5, h6]
  · simp [h1]

/-! ## The handshake: `obtainAccessToken` -/

/-- C1: in every run of `obtainAccessToken`, whatever the session, the query and the
collaborators do, if the exchange `AuthorizeToken` is called, or the assignment that
marks the session authenticated is made, or the value of "isAuthenticated" in the
session changes, then the session holds a request token under "twitter_token" whose
`Token` is the `oauth_token` of the callback, and every call of the exchange is made
with that stored request token and the `oauth_verifier` of the callback. -/
theorem obtainAccessToken_exchange_bound (env : TwitterEnv) (r : Request)
    (h : (∃ e ∈ (obtainAccessToken env r).trace, e.isAuthorizeToken = true ∨ e.isMark = true) ∨
      (obtainAccessToken env r).session.Values "isAuthenticated" ≠
        r.session.Values "isAuthenticated") :
    ∃ T : RequestToken,
      r.session.Values "twitter_token" = some (.tokenStorer ⟨some T⟩) ∧
      r.query.Get "oauth_token" = T.Token ∧
      ∀ e ∈ (obtainAccessToken env r).trace, e.isAuthorizeToken = true →
        e = .AuthorizeToken (some T) (r.query.Get "oauth_verifier") := by
  rcases obtainAccessToken_cases env r with
    ⟨hs, ht, -⟩ | ⟨hs, ht, -⟩ | ⟨T, -, -, h3, -, -, h6, heq⟩
  · simp [hs, ht] at h
  · simp [hs, ht] at h
  · refine ⟨T, h3, h6, ?_⟩
    rw [heq]
    obtain ⟨⟨t, ht, hno⟩, -⟩ :=
      exchangeAndLogin_cases env r (some T) (r.query.Get "oauth_verifier")
    intro e he hx
    rw [ht] at he
    rcases List.mem_cons.1 he with rfl | he
    · rfl
    · simp [hno e he] at hx

/-- C1 on the callback `demoCallback`, whose run calls the exchange. -/
theorem obtainAccessToken_exchange_bound_witness :
    (∃ e ∈ (obtainAccessToken demoEnv demoCallback).trace,
        e.isAuthorizeToken = true ∨ e.isMark = true) ∧
      ∃ T : RequestToken,
        demoCallback.session.Values "twitter_token" = some (.tokenStorer ⟨some T⟩) ∧
        demoCallback.query.Get "oauth_token" = T.Token ∧
        ∀ e ∈ (obtainAccessToken demoEnv demoCallback).trace, e.isAuthorizeToken = true →
          e = .AuthorizeToken (some T) (demoCallback.query.Get "oauth_verifier") :=
  ⟨by decide, obtainAccessToken_exchange_bound demoEnv demoCallback (Or.inl (by decide))⟩

/-- C2 as stated fails: on a session loaded without error, not authenticated, holding
the pending token `demoToken`, the callback `oauth_token=X` without a verifier has
a token different from the stored one and is rejected with the missing-verifier
error, not with the mismatch error. -/
theorem obtainAccessToken_mismatch_counterexample :
    noVerifierCallback.session_error = "" ∧ noVerifierCallback.isAuthenticated = false ∧
      noVerifierCallback.session.Values "twitter_token" =
        some (.tokenStorer ⟨some demoToken⟩) ∧
      noVerifierCallback.query.Get "oauth_token" ≠ demoToken.Token ∧
      (obtainAccessToken demoEnv noVerifierCallback).response =
        .routeError "No oauth_verifier returned in callback" "User Error" "req-2" 400 ∧
      (obtainAccessToken demoEnv noVerifierCallback).response ≠
        .routeError "Twitter oauth_token mismatch" "User Error" "req-2" 400 := by
  decide

/-- C2, amended: for every session loaded without error, not authenticated and holding
a pending request token `T`, and every callback whose `oauth_token` differs from
the `Token` of `T`, `obtainAccessToken` answers with an HTTP 400 user error, whose
message is the missing-verifier message when `oauth_verifier` is empty, else the
missing-token message when `oauth_token` is empty, else "Twitter oauth_token
mismatch"; the trace is empty (no exchange, no write to the session, no save) and
the session is the one received. -/
theorem obtainAccessToken_mismatch_rejected (env : TwitterEnv) (r : Request)
    (T : RequestToken) (herr : r.session_error = "") (hauth : r.isAuthenticated = false)
    (htok : r.session.Values "twitter_token" = some (.tokenStorer ⟨some T⟩))
    (hne : r.query.Get "oauth_token" ≠ T.Token) :
    (obtainAccessToken env r).response = .routeError
        (if r.query.Get "oauth_verifier" = "" then "No oauth_verifier returned in callback"
          else if r.query.Get "oauth_token" = "" then "No oauth_token returned in callback"
          else "Twitter oauth_token mismatch") "User Error" r.reqID 400 ∧
      (obtainAccessToken env r).trace = [] ∧
      (obtainAccessToken env r).session = r.session := by
  unfold obtainAccessToken
  by_cases h4 : r.query.Get "oauth_verifier" = ""
  · simp [herr, hauth, htok, h4]
  by_cases h5 : r.query.Get "oauth_token" = ""
  · simp [herr, hauth, htok, h4, h5]
  simp [herr, hauth, htok, h4, h5, hne]

/-- C2, amended, on the callback `mismatchCallback` (verifier present, token `X`
against the stored `T`): the mismatch error. -/
theorem obtainAccessToken_mismatch_rejected_witness :
    (mismatchCallback.session_error = "" ∧ mismatchCallback.isAuthenticated = false ∧
      mismatchCallback.session.Values "twitter_token" =
        some (.tokenStorer ⟨some demoToken⟩) ∧
      mismatchCallback.query.Get "oauth_token" ≠ demoToken.Token) ∧
    ((obtainAccessToken demoEnv mismatchCallback).response = .routeError
        (if mismatchCallback.query.Get "oauth_verifier" = "" then
            "No oauth_verifier returned in callback"
          else if mismatchCallback.query.Get "oauth_token" = "" then
            "No oauth_token returned in callback"
          else "Twitter oauth_token mismatch") "User Error" mismatchCallback.reqID 400 ∧
      (obtainAccessToken demoEnv mismatchCallback).trace = [] ∧
      (obtainAccessToken demoEnv mismatchCallback).session = mismatchCallback.session) :=
  ⟨by decide, obtainAccessToken_mismatch_rejected demoEnv mismatchCallback demoToken
    (by decide) (by decide) (by decide) (by decide)⟩

/-- C3: for every session loaded without a session error and not authenticated, the
answer of `obtainAccessToken` is decided by the first failing check, in the order
(1) a value under "twitter_token", (2) `oauth_verifier` not empty, (3) `oauth_token`
not empty, (4) `oauth_token` equal to the stored token.  Each failure is an HTTP 400
with its own message, with an empty trace (no exchange) and the session untouched:
a session without pending request gets the no-token error whatever the query, a
callback without verifier is rejected whatever `oauth_token` and the stored token
are; when all four checks pass the run is the exchange on the stored token.  The
four messages are pairwise different. -/
theorem obtainAccessToken_validation_order (env : TwitterEnv) (r : Request)
    (herr : r.session_error = "") (hauth : r.isAuthenticated = false) :
    (r.session.Values "twitter_token" = none →
        (obtainAccessToken env r).response =
          .routeError "No token detected in your session" "User Error" r.reqID 400 ∧
        (obtainAccessToken env r).trace = [] ∧ (obtainAccessToken env r).session = r.session) ∧
      (∀ storer, r.session.Values "twitter_token" = some (.tokenStorer storer) →
        r.query.Get "oauth_verifier" = "" →
        (obtainAccessToken env r).response =
          .routeError "No oauth_verifier returned in callback" "User Error" r.reqID 400 ∧
        (obtainAccessToken env r).trace = [] ∧ (obtainAccessToken env r).session = r.session) ∧
      (∀ storer, r.session.Values "twitter_token" = some (.tokenStorer storer) →
        r.query.Get "oauth_verifier" ≠ "" → r.query.Get "oauth_token" = "" →
        (obtainAccessToken env r).response =
          .routeError "No oauth_token returned in callback" "User Error" r.reqID 400 ∧
        (obtainAccessToken env r).trace = [] ∧ (obtainAccessToken env r).session = r.session) ∧
      (∀ T : RequestToken, r.session.Values "twitter_token" = some (.tokenStorer ⟨some T⟩) →
        r.query.Get "oauth_verifier" ≠ "" → r.query.Get "oauth_token" ≠ "" →
        r.query.Get "oauth_token" ≠ T.Token →
        (obtainAccessToken env r).response =
          .routeError "Twitter oauth_token mismatch" "User Error" r.reqID 400 ∧
        (obtainAccessToken env r).trace = [] ∧ (obtainAccessToken env r).session = r.session) ∧
      (∀ T : RequestToken, r.session.Values "twitter_token" = some (.tokenStorer ⟨some T⟩) →
        r.query.Get "oauth_verifier" ≠ "" → r.query.Get "oauth_token" ≠ "" →
        r.query.Get "oauth_token" = T.Token →
        obtainAccessToken env r =
          exchangeAndLogin env r (some T) (r.query.Get "oauth_verifier")) ∧
      ["No token detected in your session", "No oauth_verifier returned in callback",
        "No oauth_token returned in callback", "Twitter oauth_token mismatch"].Nodup := by
  refine ⟨?_, ?_, ?_, ?_, ?_, by decide⟩
  · intro h; simp [obtainAccessToken, herr, hauth, h]
  · intro st h h4; simp [obtainAccessToken, herr, hauth, h, h4]
  · intro st h h4 h5; simp [obtainAccessToken, herr, hauth, h, h4, h5]
  · intro T h h4 h5 h6; simp [obtainAccessToken, herr, hauth, h, h4, h5, h6]
  · intro T h h4 h5 h6
    have h7 : T.Token ≠ "" := h6 ▸ h5
    simp [obtainAccessToken, herr, hauth, h, h4, h6, h7]

/-- C3 on two requests: the callback `demoCallback` sent on a session without pending
request gets the no-token error, and the callback `noVerifierCallback` gets the
missing-verifier error although its token does not match either. -/
theorem obtainAccessToken_validation_order_witness :
    (demoLogin.session_error = "" ∧ demoLogin.isAuthenticated = false ∧
      demoLogin.session.Values "twitter_token" = none ∧
      (obtainAccessToken demoEnv demoLogin).response =
        .routeError "No token detected in your session" "User Error" "req-1" 400 ∧
      (obtainAccessToken demoEnv demoLogin).trace = []) ∧
    (noVerifierCallback.session_error = "" ∧ noVerifierCallback.isAuthenticated = false ∧
      noVerifierCallback.query.Get "oauth_verifier" = "" ∧
      (obtainAccessToken demoEnv noVerifierCallback).response =
        .routeError "No oauth_verifier returned in callback" "User Error" "req-2" 400 ∧
      (obtainAccessToken demoEnv noVerifierCallback).trace = []) :=
  ⟨⟨by decide, by decide, by decide,
      ((obtainAccessToken_validation_order demoEnv demoLogin (by decide) (by decide)).1
        (by decide)).1,
      ((obtainAccessToken_validation_order demoEnv demoLogin (by decide) (by decide)).1
        (by decide)).2.1⟩,
    ⟨by decide, by decide, by decide,
      ((obtainAccessToken_validation_order demoEnv noVerifierCallback (by decide)
        (by decide)).2.1 ⟨some demoToken⟩ (by decide) (by decide)).1,
      ((obtainAccessToken_validation_order demoEnv noVerifierCallback (by decide)
        (by decide)).2.1 ⟨some demoToken⟩ (by decide) (by decide)).2.1⟩⟩

/-- C4: for every request whose session was loaded without error and is already
authenticated, whatever the query and whatever the session holds, `redirectToTwitter`
and `obtainAccessToken` both answer with the 302 redirect to "/", with an empty
trace (no call to the provider client, to the profile fetch or to user resolution,
no write to the session and no save) and the session as received.  A callback
repeated on the authenticated session is such a request. -/
theorem authenticated_is_terminal (env : TwitterEnv) (r : Request)
    (herr : r.session_error = "") (hauth : r.isAuthenticated = true) :
    ((redirectToTwitter env r).response = .redirect "/" 302 ∧
        (redirectToTwitter env r).trace = [] ∧ (redirectToTwitter env r).session = r.session) ∧
      ((obtainAccessToken env r).response = .redirect "/" 302 ∧
        (obtainAccessToken env r).trace = [] ∧ (obtainAccessToken env r).session = r.session) := by
  simp [redirectToTwitter, obtainAccessToken, herr, hauth]

/-- C4 on `authenticatedCallback`: an authenticated session that still holds a pending
token, with a callback query that would pass every check. -/
theorem authenticated_is_terminal_witness :
    (authenticatedCallback.session_error = "" ∧ authenticatedCallback.isAuthenticated = true) ∧
    ((redirectToTwitter demoEnv authenticatedCallback).response = .redirect "/" 302 ∧
        (redirectToTwitter demoEnv authenticatedCallback).trace = [] ∧
        (redirectToTwitter demoEnv authenticatedCallback).session =
          authenticatedCallback.session) ∧
      ((obtainAccessToken demoEnv authenticatedCallback).response = .redirect "/" 302 ∧
        (obtainAccessToken demoEnv authenticatedCallback).trace = [] ∧
        (obtainAccessToken demoEnv authenticatedCallback).session =
          authenticatedCallback.session) :=
  ⟨by decide, authenticated_is_terminal demoEnv authenticatedCallback (by decide) (by decide)⟩

/-! ## The handshake: round trip, failures, and `redirectToTwitter` -/

/-- C5 as stated fails: the provider returns to `redirectToTwitter` a request token
whose `Token` is the empty string, the save succeeds and the token is stored; the
callback carries `oauth_token` equal to that token and the verifier `v`, every
collaborator succeeds, and `obtainAccessToken` answers with the missing-token error
and does not mark the session. -/
theorem handshake_round_trip_counterexample :
    demoLogin.session_error = "" ∧ demoLogin.isAuthenticated = false ∧
      (redirectToTwitter emptyTokenEnv demoLogin).response =
        .redirect "https://twitter.example/authorize" 302 ∧
      emptyTokenCallback.session.Values "twitter_token" =
        some (.tokenStorer ⟨some ⟨"", "S"⟩⟩) ∧
      emptyTokenCallback.session_error = "" ∧ emptyTokenCallback.isAuthenticated = false ∧
      emptyTokenCallback.query.Get "oauth_token" = (RequestToken.mk "" "S").Token ∧
      emptyTokenCallback.query.Get "oauth_verifier" = "v" ∧
      (obtainAccessToken emptyTokenEnv emptyTokenCallback).response =
        .routeError "No oauth_token returned in callback" "User Error" "req-2" 400 ∧
      (obtainAccessToken emptyTokenEnv emptyTokenCallback).session.Values "isAuthenticated" =
        none := by
  decide

/-- C5, amended: for every request token `T` with a non-empty `Token` returned by the
provider to `redirectToTwitter` on a session loaded without error and not
authenticated, whose save succeeds, `T` is stored under "twitter_token" and the
answer is the redirect to the authorization URL; and for every callback on the
resulting session (loaded without error, not authenticated) with `oauth_token` equal
to the `Token` of `T` and a non-empty verifier `v`, if the exchange
`AuthorizeToken(T, v)`, the profile fetch, `findOrCreateUser` (returning `u`) and the
session save all succeed, then `obtainAccessToken` leaves the session with
"isAuthenticated" true and "user_id" the hexadecimal identifier of `u`, and answers
with the 302 redirect to "/". -/
theorem handshake_round_trip (env : TwitterEnv) (r1 r2 : Request) (T : RequestToken)
    (U : String) (a : AccessToken) (tu : TwitterUser) (u : User)
    (herr1 : r1.session_error = "") (hauth1 : r1.isAuthenticated = false)
    (hprov : env.GetRequestTokenAndUrl (callbackUrl env) = .ok (some T, U))
    (hsave1 : env.sessionSave
      (r1.session.setValue "twitter_token" (.tokenStorer ⟨some T⟩)) = none)
    (hsess : r2.session = (redirectToTwitter env r1).session)
    (herr2 : r2.session_error = "") (hauth2 : r2.isAuthenticated = false)
    (htok : r2.query.Get "oauth_token" = T.Token) (hnonempty : T.Token ≠ "")
    (hver : r2.query.Get "oauth_verifier" ≠ "")
    (hex : env.AuthorizeToken (some T) (r2.query.Get "oauth_verifier") = .ok (some a))
    (hprof : env.GetSelf a.Token a.Secret env.consumerKey env.consumerSecret
      [("skip_status", "true")] = .ok tu)
    (huser : env.findOrCreateUser tu (some a) = .ok (some u))
    (hsave2 : env.sessionSave ((r2.session.setValue "isAuthenticated" (.bool true)).setValue
      "user_id" (.str u.GetId.Hex)) = none) :
    (redirectToTwitter env r1).session.Values "twitter_token" =
        some (.tokenStorer ⟨some T⟩) ∧
      (redirectToTwitter env r1).response = .redirect U 302 ∧
      (obtainAccessToken env r2).session.Values "isAuthenticated" = some (.bool true) ∧
      (obtainAccessToken env r2).session.Values "user_id" = some (.str u.GetId.Hex) ∧
      (obtainAccessToken env r2).response = .redirect "/" 302 := by
  have hres : redirectToTwitter env r1 = ⟨.redirect U 302,
      r1.session.setValue "twitter_token" (.tokenStorer ⟨some T⟩),
      [.GetRequestTokenAndUrl (callbackUrl env),
        .setValue "twitter_token" (.tokenStorer ⟨some T⟩),
        .sessionSave (r1.session.setValue "twitter_token" (.tokenStorer ⟨some T⟩)) true]⟩ := by
    simp [redirectToTwitter, herr1, hauth1, hprov, hsave1]
  have hstored : r2.session.Values "twitter_token" = some (.tokenStorer ⟨some T⟩) := by
    rw [hsess, hres]; simp [Session.setValue, Values.set]
  have hrun : obtainAccessToken env r2 = ⟨.redirect "/" 302,
      (r2.session.setValue "isAuthenticated" (.bool true)).setValue
        "user_id" (.str u.GetId.Hex),
      [.AuthorizeToken (some T) (r2.query.Get "oauth_verifier"),
        .GetSelf a.Token a.Secret env.consumerKey env.consumerSecret [("skip_status", "true")],
        .findOrCreateUser tu (some a), .setValue "isAuthenticated" (.bool true),
        .setValue "user_id" (.str u.GetId.Hex),
        .sessionSave ((r2.session.setValue "isAuthenticated" (.bool true)).setValue
          "user_id" (.str u.GetId.Hex)) true]⟩ := by
    simp [obtainAccessToken, exchangeAndLogin, getUserInfo, herr2, hauth2, hstored, htok,
      hnonempty, hver, hex, hprof, huser, hsave2]
  refine ⟨?_, ?_, ?_, ?_, ?_⟩
  · rw [hres]; simp [Session.setValue, Values.set]
  · rw [hres]
  · rw [hrun]; simp [Session.setValue, Values.set]
  · rw [hrun]; simp [Session.setValue, Values.set]
  · rw [hrun]

/-- C5, amended, on the run `demoLogin` then `demoCallback` with collaborators that
succeed: the session ends authenticated and bound to the user `01ab10`. -/
theorem handshake_round_trip_witness :
    (redirectToTwitter demoEnv demoLogin).session.Values "twitter_token" =
        some (.tokenStorer ⟨some demoToken⟩) ∧
      (redirectToTwitter demoEnv demoLogin).response =
        .redirect "https://twitter.example/authorize" 302 ∧
      (obtainAccessToken demoEnv demoCallback).session.Values "isAuthenticated" =
        some (.bool true) ∧
      (obtainAccessToken demoEnv demoCallback).session.Values "user_id" =
        some (.str "01ab10") ∧
      (obtainAccessToken demoEnv demoCallback).response = .redirect "/" 302 :=
  handshake_round_trip demoEnv demoLogin demoCallback demoToken
    "https://twitter.example/authorize" ⟨"A", "AS"⟩ ⟨"7", "player"⟩ demoUser
    (by decide) (by decide) rfl (by decide) rfl (by decide) (by decide) (by decide)
    (by decide) (by decide) rfl rfl rfl (by decide)

/-- C6 as stated fails: when every collaborator succeeds and the final session save
fails, the answer is the HTTP 500 of the failed save and the values "isAuthenticated"
and "user_id" of the session object are no longer the ones before the call. -/
theorem obtainAccessToken_failed_save_counterexample :
    (obtainAccessToken failingSaveEnv demoCallback).response =
        .routeError "Error saving session after being logged in" "disk full" "req-2" 500 ∧
      demoCallback.session.Values "isAuthenticated" = none ∧
      (obtainAccessToken failingSaveEnv demoCallback).session.Values "isAuthenticated" =
        some (.bool true) ∧
      demoCallback.session.Values "user_id" = none ∧
      (obtainAccessToken failingSaveEnv demoCallback).session.Values "user_id" =
        some (.str "01ab10") := by
  decide

/-- C6, amended: for every run of `obtainAccessToken` that ends in an error response,
if the error is not the one of the failed session save, the session is the one
received and the trace has no write to the session and no save; if it is the failed
session save, the status is 500, the handler has set "isAuthenticated" and "user_id"
on the session object before the save, that save returned the error, and no save of
the session succeeded. -/
theorem obtainAccessToken_error_paths (env : TwitterEnv) (r : Request)
    (message err reqID : String) (code : Nat)
    (h : (obtainAccessToken env r).response = .routeError message err reqID code) :
    (message ≠ "Error saving session after being logged in" →
        (obtainAccessToken env r).session = r.session ∧
        ∀ e ∈ (obtainAccessToken env r).trace,
          e.isSessionWrite = false ∧ e.isSessionSave = false) ∧
      (message = "Error saving session after being logged in" →
        code = 500 ∧ env.sessionSave (obtainAccessToken env r).session = some err ∧
        (∃ u : User, (obtainAccessToken env r).session =
          (r.session.setValue "isAuthenticated" (.bool true)).setValue
            "user_id" (.str u.GetId.Hex)) ∧
        ∀ e ∈ (obtainAccessToken env r).trace, e.isSessionSave = true →
          e = .sessionSave (obtainAccessToken env r).session false) := by
  rcases obtainAccessToken_cases env r with
    ⟨hs, ht, hno, -⟩ | ⟨hs, ht, hresp, -⟩ | ⟨T, -, -, -, -, -, -, heq⟩
  · refine ⟨fun _ => ⟨hs, by simp [ht]⟩, fun hm => ?_⟩
    subst hm
    exact absurd h (hno err reqID code)
  · rw [hresp] at h; exact absurd h (by simp)
  · rw [heq] at h ⊢
    rcases (exchangeAndLogin_cases env r (some T) (r.query.Get "oauth_verifier")).2 with
      ⟨hs, hw, hsv, hno, -⟩ | ⟨a, tu, u, -, -, -, hs, ht, hsave⟩
    · refine ⟨fun _ => ⟨hs, fun e he => ⟨hw e he, hsv e he⟩⟩, fun hm => ?_⟩
      subst hm
      exact absurd h (hno err reqID code)
    · rcases hsave with ⟨err1, hsave, hresp⟩ | ⟨-, hresp⟩
      · rw [hresp] at h
        simp only [Response.routeError.injEq] at h
        obtain ⟨hm, he, -, hc⟩ := h
        refine ⟨fun hne => absurd hm.symm hne, fun _ => ⟨hc.symm, ?_, ⟨u, hs⟩, ?_⟩⟩
        · rw [hsave, he]
        · intro e hmem hx
          rw [ht] at hmem
          simp only [List.mem_cons, List.mem_singleton, List.not_mem_nil, or_false] at hmem
          rcases hmem with rfl | rfl | rfl | rfl | rfl | rfl
          · simp [Event.isSessionSave] at hx
          · simp [Event.isSessionSave] at hx
          · simp [Event.isSessionSave] at hx
          · simp [Event.isSessionSave] at hx
          · simp [Event.isSessionSave] at hx
          · simp [hsave]
      · rw [hresp] at h; exact absurd h (by simp)

/-- C6, amended, on two runs: the mismatch error of `mismatchCallback` leaves the
session as received, and the failed save of `failingSaveEnv` is a status 500. -/
theorem obtainAccessToken_error_paths_witness :
    ((obtainAccessToken demoEnv mismatchCallback).response =
        .routeError "Twitter oauth_token mismatch" "User Error" "req-2" 400 ∧
      (obtainAccessToken demoEnv mismatchCallback).session = mismatchCallback.session) ∧
    ((obtainAccessToken failingSaveEnv demoCallback).response =
        .routeError "Error saving session after being logged in" "disk full" "req-2" 500 ∧
      failingSaveEnv.sessionSave (obtainAccessToken failingSaveEnv demoCallback).session =
        some "disk full") :=
  ⟨⟨by decide,
      ((obtainAccessToken_error_paths demoEnv mismatchCallback "Twitter oauth_token mismatch"
        "User Error" "req-2" 400 (by decide)).1 (by decide)).1⟩,
    ⟨by decide,
      ((obtainAccessToken_error_paths failingSaveEnv demoCallback
        "Error saving session after being logged in" "disk full" "req-2" 500
        (by decide)).2 rfl).2.1⟩⟩

/-- C7 as stated fails: after the successful run on `demoCallback` (redirect home,
session authenticated) the session still holds the request token under
"twitter_token". -/
theorem obtainAccessToken_token_kept_counterexample :
    demoCallback.session_error = "" ∧ demoCallback.isAuthenticated = false ∧
      (obtainAccessToken demoEnv demoCallback).response = .redirect "/" 302 ∧
      (obtainAccessToken demoEnv demoCallback).session.Values "isAuthenticated" =
        some (.bool true) ∧
      (obtainAccessToken demoEnv demoCallback).session.Values "twitter_token" =
        some (.tokenStorer ⟨some demoToken⟩) ∧
      (obtainAccessToken demoEnv demoCallback).session.Values "twitter_token" ≠ none := by
  decide

/-- C7, amended: after every successful run of `obtainAccessToken` on a session that
was not authenticated (answer: the redirect home), the session is marked
authenticated and still holds under "twitter_token" the value it held before, a
request token whose `Token` is the `oauth_token` of the callback; the handler does
not remove the pending request token. -/
theorem obtainAccessToken_token_kept (env : TwitterEnv) (r : Request)
    (hauth : r.isAuthenticated = false)
    (hok : (obtainAccessToken env r).response = .redirect "/" 302) :
    (obtainAccessToken env r).session.Values "isAuthenticated" = some (.bool true) ∧
      (obtainAccessToken env r).session.Values "twitter_token" =
        r.session.Values "twitter_token" ∧
      ∃ T : RequestToken, (obtainAccessToken env r).session.Values "twitter_token" =
        some (.tokenStorer ⟨some T⟩) ∧ T.Token = r.query.Get "oauth_token" := by
  rcases obtainAccessToken_cases env r with
    ⟨-, -, -, hno⟩ | ⟨-, -, -, -, ha⟩ | ⟨T, -, -, h3, -, -, h6, heq⟩
  · exact absurd hok hno
  · rw [hauth] at ha; exact absurd ha (by simp)
  · rw [heq] at hok ⊢
    rcases (exchangeAndLogin_cases env r (some T) (r.query.Get "oauth_verifier")).2 with
      ⟨-, -, -, -, hno⟩ | ⟨a, tu, u, -, -, -, hs, -, -⟩
    · exact absurd hok hno
    · rw [hs]
      refine ⟨by simp [Session.setValue, Values.set], ?_, T, ?_, h6.symm⟩
      · simp [Session.setValue, Values.set]
      · simp [Session.setValue, Values.set, h3]

/-- C7, amended, on the successful run on `demoCallback`. -/
theorem obtainAccessToken_token_kept_witness :
    (demoCallback.isAuthenticated = false ∧
      (obtainAccessToken demoEnv demoCallback).response = .redirect "/" 302) ∧
    ((obtainAccessToken demoEnv demoCallback).session.Values "isAuthenticated" =
        some (.bool true) ∧
      (obtainAccessToken demoEnv demoCallback).session.Values "twitter_token" =
        demoCallback.session.Values "twitter_token" ∧
      ∃ T : RequestToken, (obtainAccessToken demoEnv demoCallback).session.Values
        "twitter_token" = some (.tokenStorer ⟨some T⟩) ∧
        T.Token = demoCallback.query.Get "oauth_token") :=
  ⟨by decide, obtainAccessToken_token_kept demoEnv demoCallback (by decide) (by decide)⟩

/-- C8: for every session loaded without error and not authenticated, the first
event of `redirectToTwitter` is the call of the provider with the URL scheme ++ domain
++ "/connect/twitter/callback", the scheme being "https://" when ENVIRONMENT is
"production" and "http://" otherwise, and no other call to the provider follows.
If the provider returns `(T, U)` and the save succeeds, "twitter_token" holds `T`,
every other value and every flash queue is unchanged, the session is not marked
authenticated by the handler, and the answer is the 302 redirect to `U`.  If the
provider fails the answer is an HTTP 500 and the session is as received; if the
save fails the answer is an HTTP 500. -/
theorem redirectToTwitter_success_path (env : TwitterEnv) (r : Request)
    (herr : r.session_error = "") (hauth : r.isAuthenticated = false) :
    (∃ t, (redirectToTwitter env r).trace =
        .GetRequestTokenAndUrl ((if env.ENVIRONMENT = "production" then "https://" else "http://")
          ++ env.domain ++ "/connect/twitter/callback") :: t ∧
        ∀ e ∈ t, e.isProviderCall = false) ∧
      (∀ T U, env.GetRequestTokenAndUrl (callbackUrl env) = .ok (T, U) →
        env.sessionSave (r.session.setValue "twitter_token" (.tokenStorer ⟨T⟩)) = none →
        (redirectToTwitter env r).session.Values "twitter_token" = some (.tokenStorer ⟨T⟩) ∧
        (∀ k, k ≠ "twitter_token" →
          (redirectToTwitter env r).session.Values k = r.session.Values k) ∧
        (redirectToTwitter env r).session.Flashes = r.session.Flashes ∧
        (∀ e ∈ (redirectToTwitter env r).trace, e.isMark = false) ∧
        (redirectToTwitter env r).response = .redirect U 302) ∧
      (∀ err, env.GetRequestTokenAndUrl (callbackUrl env) = .error err →
        (redirectToTwitter env r).response =
          .routeError "Error generating Twitter redirect URL" err r.reqID 500 ∧
        (redirectToTwitter env r).session = r.session) ∧
      (∀ T U err, env.GetRequestTokenAndUrl (callbackUrl env) = .ok (T, U) →
        env.sessionSave (r.session.setValue "twitter_token" (.tokenStorer ⟨T⟩)) = some err →
        (redirectToTwitter env r).response =
          .routeError "Error saving session" err r.reqID 500) := by
  have hurl : callbackUrl env = (if env.ENVIRONMENT = "production" then "https://" else "http://")
          ++ env.domain ++ "/connect/twitter/callback" := by
    unfold callbackUrl
    by_cases hp : env.ENVIRONMENT = "production" <;> simp [hp]
  rw [← hurl]
  refine ⟨?_, ?_, ?_, ?_⟩
  · unfold redirectToTwitter
    cases h1 : env.GetRequestTokenAndUrl (callbackUrl env) with
    | error err => simp [herr, hauth]
    | ok p =>
      obtain ⟨T, U⟩ := p
      cases h2 : env.sessionSave (r.session.setValue "twitter_token" (.tokenStorer ⟨T⟩)) <;>
        simp [herr, hauth, h2, Event.isProviderCall]
  · intro T U h1 h2
    have hres : redirectToTwitter env r = ⟨.redirect U 302,
        r.session.setValue "twitter_token" (.tokenStorer ⟨T⟩),
        [.GetRequestTokenAndUrl (callbackUrl env),
          .setValue "twitter_token" (.tokenStorer ⟨T⟩),
          .sessionSave (r.session.setValue "twitter_token" (.tokenStorer ⟨T⟩)) true]⟩ := by
      simp [redirectToTwitter, herr, hauth, h1, h2]
    rw [hres]
    refine ⟨by simp [Session.setValue, Values.set], ?_, rfl, ?_, rfl⟩
    · intro k hk
      simp [Session.setValue, Values.set, hk]
    · simp [Event.isMark]
  · intro err h1
    simp [redirectToTwitter, herr, hauth, h1]
  · intro T U err h1 h2
    simp [redirectToTwitter, herr, hauth, h1, h2]

/-- C8 on `demoLogin`: the token of the provider is stored and the answer is the
redirect to the authorization URL. -/
theorem redirectToTwitter_success_path_witness :
    (demoLogin.session_error = "" ∧ demoLogin.isAuthenticated = false) ∧
      (redirectToTwitter demoEnv demoLogin).session.Values "twitter_token" =
        some (.tokenStorer ⟨some demoToken⟩) ∧
      (redirectToTwitter demoEnv demoLogin).response =
        .redirect "https://twitter.example/authorize" 302 :=
  ⟨by decide,
    ((redirectToTwitter_success_path demoEnv demoLogin (by decide) (by decide)).2.1
      (some demoToken) "https://twitter.example/authorize" rfl (by decide)).1,
    ((redirectToTwitter_success_path demoEnv demoLogin (by decide) (by decide)).2.1
      (some demoToken) "https://twitter.example/authorize" rfl (by decide)).2.2.2.2⟩

/-! ## The settings form: `updateSettings` -/

/-- The database writes of a trace are its `Save` events. -/
theorem mem_dbWrites (t : List Event) (w : String × Document) :
    w ∈ dbWrites t ↔ .Save w.1 w.2 ∈ t := by
  induction t with
  | nil => simp [dbWrites]
  | cons e t ih =>
    cases e <;> simp [dbWrites, ih, Prod.ext_iff]

/-- The database writes of a concatenation. -/
theorem dbWrites_append (t u : List Event) : dbWrites (t ++ u) = dbWrites t ++ dbWrites u := by
  induction t with
  | nil => simp [dbWrites]
  | cons e t ih => cases e <;> simp [dbWrites, ih]

/-- The exit on a form error appends the flash and the session save to the trace. -/
theorem flashExit_trace (env : SettingsEnv) (s : Session) (msg : String) (t : List Event)
    (u : User) :
    (flashExit env s msg t u).trace = t ++ [.AddFlash msg "settings_error",
      .sessionSave (s.AddFlash msg "settings_error")
        (env.sessionSave (s.AddFlash msg "settings_error")).isNone] := rfl

/-- The trace of the new-player branch extends the trace so far with events that are
neither calls to the osu! API nor saves of a user record. -/
theorem newPlayer_trace (env : SettingsEnv) (s : Session) (u : User) (m : Int)
    (api : ApiUser) (t0 : List Event) :
    ∃ t, (newPlayer env s u m api t0).trace = t0 ++ t ∧
      ∀ e ∈ t, e.isGetUser = false ∧ e.notUserSave = true := by
  unfold newPlayer
  simp only []
  split
  · exact ⟨_, by simp only [flashExit_trace, List.append_assoc]; rfl,
      by simp [Event.isGetUser, Event.notUserSave]⟩
  · split
    · exact ⟨_, by simp only [flashExit_trace, List.append_assoc]; rfl,
        by simp [Event.isGetUser, Event.notUserSave]⟩
    · split
      · exact ⟨_, by simp only [flashExit_trace, List.append_assoc]; rfl,
          by simp [Event.isGetUser, Event.notUserSave]⟩
      · split
        · exact ⟨_, by simp only [flashExit_trace, List.append_assoc]; rfl,
            by simp [Event.isGetUser, Event.notUserSave]⟩
        · exact ⟨_, by simp only [List.append_assoc]; rfl,
            by simp [Event.isGetUser, Event.notUserSave]⟩

/-- No run of `updateSettings` saves to "usermodels" or saves a user record. -/
theorem updateSettings_notUserSave (env : SettingsEnv) (r : SettingsRequest) :
    ∀ e ∈ (updateSettings env r).trace, e.notUserSave = true := by
  unfold updateSettings
  split
  · simp
  split
  · simp
  split
  · simp
  split
  · simp
  split
  · simp
  split
  · simp [flashExit_trace, Event.notUserSave]
  split
  · simp [flashExit_trace, Event.notUserSave]
  split
  · simp [flashExit_trace, Event.notUserSave]
  simp only []
  split
  · simp [flashExit_trace, Event.notUserSave]
  split
  · simp [Event.notUserSave]
  · intro e he
    obtain ⟨t, ht, hno⟩ := newPlayer_trace env r.session ‹User› ‹Int› ‹ApiUser›
      ([.GetUser (Query.Get ‹Query› "osu_username") (Itoa ‹Int›)] ++
        [.FindOne "osuplayermodels" (ApiUser.UserID ‹ApiUser›)])
    rw [ht] at he
    rcases List.mem_append.1 he with he | he
    · simp at he
      rcases he with rfl | rfl <;> simp [Event.notUserSave]
    · exact (hno e he).2
  · simp [flashExit_trace, Event.notUserSave]

/-- The new-player branch when every save succeeds: four saves, the player record,
the request record, then the player record twice, and no answer written. -/
theorem newPlayer_saved (env : SettingsEnv) (s : Session) (u : User) (m : Int)
    (api : ApiUser) (t0 : List Event) (hsave : ∀ n c d, (env.Save n c d).1 = none) :
    ∃ p0 p2 p3 : OsuPlayer, ∃ q0 : OsuRequest,
      (newPlayer env s u m api t0).trace = t0 ++ [.Save "osuplayermodels" (.osuPlayer p0),
        .Save "osurequestmodels" (.osuRequest q0), .Save "osuplayermodels" (.osuPlayer p2),
        .Save "osuplayermodels" (.osuPlayer p3)] ∧
      p0 = { base := DocumentBase.zero, UserID := api.UserID, PlayerName := api.Username,
             LastChecked := env.Now 0,
             Modes := { Standard := ⟨[]⟩, Mania := ⟨[]⟩, Taiko := ⟨[]⟩, CTB := ⟨[]⟩ } } ∧
      q0 = newOsuRequest env
        { p0 with base := (env.Save 0 "osuplayermodels" (.osuPlayer p0)).2 } api ∧
      p2 = appendCheck { p0 with base := (env.Save 0 "osuplayermodels" (.osuPlayer p0)).2 } m
        (env.Save 1 "osurequestmodels" (.osuRequest q0)).2.Id ∧
      p3 = { p2 with base := (env.Save 2 "osuplayermodels" (.osuPlayer p2)).2 } ∧
      (newPlayer env s u m api t0).response = .nothing ∧
      (newPlayer env s u m api t0).session = s ∧
      (newPlayer env s u m api t0).user =
        { u with OsuSettings := { u.OsuSettings with Player := p3.GetId, Mode := m } } := by
  unfold newPlayer
  simp only []
  split
  · rename_i heq
    have h := congrArg Prod.fst heq
    simp [hsave] at h
  · rename_i b1 heq1
    have hb1 := congrArg Prod.snd heq1
    simp only [] at hb1
    subst hb1
    split
    · rename_i heq
      have h := congrArg Prod.fst heq
      simp [hsave] at h
    · rename_i b2 heq2
      have hb2 := congrArg Prod.snd heq2
      simp only [] at hb2
      subst hb2
      split
      · rename_i heq
        have h := congrArg Prod.fst heq
        simp [hsave] at h
      · rename_i b3 heq3
        have hb3 := congrArg Prod.snd heq3
        simp only [] at hb3
        subst hb3
        split
        · rename_i heq
          have h := congrArg Prod.fst heq
          simp [hsave] at h
        · refine ⟨_, _, _, _, ?_, rfl, rfl, rfl, rfl, rfl, rfl, rfl⟩
          simp only [List.append_assoc, List.singleton_append]
          rfl

/-- The decimal strings of the mode numbers 0 to 3, which `Atoi` reads back. -/
theorem Itoa_mode (m : Int) (h0 : 0 ≤ m) (h3 : m ≤ 3) :
    Itoa m ∈ ["0", "1", "2", "3"] ∧ Atoi (Itoa m) = .ok m := by
  have : m = 0 ∨ m = 1 ∨ m = 2 ∨ m = 3 := by omega
  rcases this with rfl | rfl | rfl | rfl <;> exact ⟨by decide, rfl⟩

/-- C9: for every authenticated user with tweet posting enabled, a form whose
`game_mode` parses to a mode `m` in 0..3, a successful osu! API lookup, a player
lookup reporting `DocumentNotFound` and saves that all succeed, the database writes
of `updateSettings` are exactly, in order: the new player record to
"osuplayermodels", the request record to "osurequestmodels", the player record with
the identifier of the request appended to "osuplayermodels", and the same player record
to "osuplayermodels" once more, with the same user identifier, name, time and lists
as in the write before (only the `DocumentBase` left by that save differs); nothing
is written to the response, and `Player` and `Mode` are assigned on the local
variable `user`.  On no run of `updateSettings`, whatever the request and the
collaborators, is a write made to "usermodels" or a user record saved. -/
theorem updateSettings_write_trace (env : SettingsEnv) (r : SettingsRequest) (user : User)
    (form : Query) (m : Int) (api : ApiUser)
    (herr : r.session_error = "") (hauth : r.isAuthenticated = true)
    (huerr : r.user_error = "") (huser : r.user = some user)
    (henabled : user.OsuSettings.Enabled = true) (hform : r.ParseForm = .ok form)
    (hmode : Atoi (form.Get "game_mode") = .ok m) (h0 : 0 ≤ m) (h3 : m ≤ 3)
    (hapi : env.GetUser (form.Get "osu_username") (Itoa m) = .ok api)
    (hfind : env.FindOne "osuplayermodels" api.UserID = .DocumentNotFound)
    (hsave : ∀ n c d, (env.Save n c d).1 = none) :
    (∃ p0 p2 p3 : OsuPlayer, ∃ q0 : OsuRequest,
      dbWrites (updateSettings env r).trace =
        [("osuplayermodels", .osuPlayer p0), ("osurequestmodels", .osuRequest q0),
          ("osuplayermodels", .osuPlayer p2), ("osuplayermodels", .osuPlayer p3)] ∧
      p0 = { base := DocumentBase.zero, UserID := api.UserID, PlayerName := api.Username,
             LastChecked := env.Now 0,
             Modes := { Standard := ⟨[]⟩, Mania := ⟨[]⟩, Taiko := ⟨[]⟩, CTB := ⟨[]⟩ } } ∧
      q0 = newOsuRequest env
        { p0 with base := (env.Save 0 "osuplayermodels" (.osuPlayer p0)).2 } api ∧
      p2 = appendCheck { p0 with base := (env.Save 0 "osuplayermodels" (.osuPlayer p0)).2 } m
        (env.Save 1 "osurequestmodels" (.osuRequest q0)).2.Id ∧
      p3.base = (env.Save 2 "osuplayermodels" (.osuPlayer p2)).2 ∧
      p3.UserID = p2.UserID ∧ p3.PlayerName = p2.PlayerName ∧
      p3.LastChecked = p2.LastChecked ∧ p3.Modes = p2.Modes ∧
      (updateSettings env r).response = .nothing ∧
      (updateSettings env r).session = r.session ∧
      (updateSettings env r).user =
        { user with OsuSettings := { user.OsuSettings with Player := p3.GetId, Mode := m } }) ∧
    (∀ (env1 : SettingsEnv) (r1 : SettingsRequest),
      ∀ w ∈ dbWrites (updateSettings env1 r1).trace, w.1 ≠ "usermodels" ∧ ∀ u, w.2 ≠ .user u) := by
  constructor
  · have hgood : ¬ (m < 0 ∨ 3 < m) := by omega
    have hrun : updateSettings env r = newPlayer env r.session user m api
        ([.GetUser (form.Get "osu_username") (Itoa m)] ++
          [.FindOne "osuplayermodels" api.UserID]) := by
      simp [updateSettings, herr, hauth, huerr, huser, henabled, hform, hmode, hgood, hapi,
        hfind]
    obtain ⟨p0, p2, p3, q0, ht, hp0, hq0, hp2, hp3, hresp, hsess, hu⟩ :=
      newPlayer_saved env r.session user m api
        ([.GetUser (form.Get "osu_username") (Itoa m)] ++
          [.FindOne "osuplayermodels" api.UserID]) hsave
    refine ⟨p0, p2, p3, q0, ?_, hp0, hq0, hp2, ?_, ?_, ?_, ?_, ?_, ?_, ?_, ?_⟩
    · rw [hrun, ht, dbWrites_append]
      rfl
    · rw [hp3]
    · rw [hp3]
    · rw [hp3]
    · rw [hp3]
    · rw [hp3]
    · rw [hrun, hresp]
    · rw [hrun, hsess]
    · rw [hrun, hu]
  · intro env1 r1 w hw
    have hev := updateSettings_notUserSave env1 r1 _ ((mem_dbWrites _ w).1 hw)
    obtain ⟨c, d⟩ := w
    cases d with
    | user u => simp [Event.notUserSave] at hev
    | osuPlayer p => simpa [Event.notUserSave] using hev
    | osuRequest q => simpa [Event.notUserSave] using hev

/-- C9 on the request `demoSettingsRequest "1"`, for a player that is not in the
database: four writes, to the player, request, player and player collections. -/
theorem updateSettings_write_trace_witness :
    (dbWrites (updateSettings demoSettingsEnv (demoSettingsRequest "1")).trace).map Prod.fst =
        ["osuplayermodels", "osurequestmodels", "osuplayermodels", "osuplayermodels"] ∧
    ∃ p0 p2 p3 : OsuPlayer, ∃ q0 : OsuRequest,
      dbWrites (updateSettings demoSettingsEnv (demoSettingsRequest "1")).trace =
        [("osuplayermodels", .osuPlayer p0), ("osurequestmodels", .osuRequest q0),
          ("osuplayermodels", .osuPlayer p2), ("osuplayermodels", .osuPlayer p3)] ∧
      p3.UserID = p2.UserID ∧ p3.PlayerName = p2.PlayerName ∧
      p3.LastChecked = p2.LastChecked ∧ p3.Modes = p2.Modes :=
  ⟨by decide,
    let ⟨p0, p2, p3, q0, hw, _, _, _, _, h1, h2, h3, h4, _⟩ :=
      (updateSettings_write_trace demoSettingsEnv (demoSettingsRequest "1") demoUser
        (demoForm "1") 1 demoApiUser (by decide) (by decide) (by decide) rfl (by decide) rfl
        rfl (by decide) (by decide) rfl rfl (fun _ _ _ => rfl)).1
    ⟨p0, p2, p3, q0, hw, h1, h2, h3, h4⟩⟩

/-- C10: for every authenticated user with tweet posting enabled and every parsed form,
the trace of `updateSettings` has a call to the osu! API or to the database only if
`game_mode` parses (`strconv.Atoi`) to an integer `m` with 0 ≤ m ≤ 3; in that case
the first event is the API query with user parameter `osu_username` and mode
parameter the decimal string of `m` (one of "0", "1", "2", "3", which parses back
to `m`), and no other API query follows; for every other `game_mode` the handler adds
the flash "Invalid mode" under "settings_error", saves the session and answers with
the 302 redirect to "/settings", the trace holding these two events only. -/
theorem updateSettings_mode_validation (env : SettingsEnv) (r : SettingsRequest) (user : User)
    (form : Query) (herr : r.session_error = "") (hauth : r.isAuthenticated = true)
    (huerr : r.user_error = "") (huser : r.user = some user)
    (henabled : user.OsuSettings.Enabled = true) (hform : r.ParseForm = .ok form) :
    ((∃ e ∈ (updateSettings env r).trace, e.isApiOrDb = true) →
        ∃ m, Atoi (form.Get "game_mode") = .ok m ∧ 0 ≤ m ∧ m ≤ 3) ∧
      (∀ m, Atoi (form.Get "game_mode") = .ok m → 0 ≤ m → m ≤ 3 →
        (∃ t, (updateSettings env r).trace =
            .GetUser (form.Get "osu_username") (Itoa m) :: t ∧
          ∀ e ∈ t, e.isGetUser = false) ∧
        Itoa m ∈ ["0", "1", "2", "3"] ∧ Atoi (Itoa m) = .ok m) ∧
      ((¬ ∃ m, Atoi (form.Get "game_mode") = .ok m ∧ 0 ≤ m ∧ m ≤ 3) →
        (updateSettings env r).response = .redirect "/settings" 302 ∧
        (updateSettings env r).session = r.session.AddFlash "Invalid mode" "settings_error" ∧
        (updateSettings env r).trace = [.AddFlash "Invalid mode" "settings_error",
          .sessionSave (r.session.AddFlash "Invalid mode" "settings_error")
            (env.sessionSave (r.session.AddFlash "Invalid mode" "settings_error")).isNone]) := by
  have hinvalid : (¬ ∃ m, Atoi (form.Get "game_mode") = .ok m ∧ 0 ≤ m ∧ m ≤ 3) →
      updateSettings env r = flashExit env r.session "Invalid mode" [] user := by
    intro hno
    unfold updateSettings
    cases hA : Atoi (form.Get "game_mode") with
    | error e => simp [herr, hauth, huerr, huser, henabled, hform, hA]
    | ok m =>
      have hbad : m < 0 ∨ 3 < m := by
        by_contra hc
        exact hno ⟨m, hA, by omega, by omega⟩
      simp [herr, hauth, huerr, huser, henabled, hform, hA, hbad]
  refine ⟨?_, ?_, ?_⟩
  · intro hex
    by_contra hno
    rw [hinvalid hno] at hex
    simp [flashExit_trace, Event.isApiOrDb] at hex
  · intro m hA h0 h3
    refine ⟨?_, Itoa_mode m h0 h3⟩
    have hgood : ¬ (m < 0 ∨ m > 3) := by omega
    unfold updateSettings
    simp only [herr, hauth, huerr, huser, henabled, hform, hA, hgood, ne_eq, not_true_eq_false,
      if_false, Bool.true_eq_false, Bool.false_eq_true]
    cases hG : env.GetUser (form.Get "osu_username") (Itoa m) with
    | error e => exact ⟨_, by simp only [flashExit_trace]; rfl, by simp [Event.isGetUser]⟩
    | ok api =>
      simp only []
      cases hF : env.FindOne "osuplayermodels" api.UserID with
      | found p => exact ⟨_, rfl, by simp [Event.isGetUser]⟩
      | otherError e =>
        exact ⟨_, by simp only [flashExit_trace]; rfl, by simp [Event.isGetUser]⟩
      | DocumentNotFound =>
        obtain ⟨t, ht, hno⟩ := newPlayer_trace env r.session user m api
          ([.GetUser (form.Get "osu_username") (Itoa m)] ++
            [.FindOne "osuplayermodels" api.UserID])
        refine ⟨.FindOne "osuplayermodels" api.UserID :: t, ?_, ?_⟩
        · simp only []
          rw [ht]; rfl
        · intro e he
          rcases List.mem_cons.1 he with rfl | he
          · rfl
          · exact (hno e he).1
  · intro hno
    rw [hinvalid hno]
    exact ⟨rfl, rfl, rfl⟩

/-- C10 on two forms: `game_mode=1` is valid and the API is queried with mode "1"
for "peppy"; `game_mode=4` is rejected with the redirect to "/settings". -/
theorem updateSettings_mode_validation_witness :
    (∃ t, (updateSettings demoSettingsEnv (demoSettingsRequest "1")).trace =
        .GetUser "peppy" "1" :: t ∧ ∀ e ∈ t, e.isGetUser = false) ∧
      (updateSettings demoSettingsEnv (demoSettingsRequest "4")).response =
        .redirect "/settings" 302 ∧
      (updateSettings demoSettingsEnv (demoSettingsRequest "4")).session.Flashes
        "settings_error" = ["Invalid mode"] :=
  ⟨((updateSettings_mode_validation demoSettingsEnv (demoSettingsRequest "1") demoUser
      (demoForm "1") (by decide) (by decide) (by decide) rfl (by decide) rfl).2.1 1 rfl
      (by decide) (by decide)).1,
    ((updateSettings_mode_validation demoSettingsEnv (demoSettingsRequest "4") demoUser
      (demoForm "4") (by decide) (by decide) (by decide) rfl (by decide) rfl).2.2
      (fun ⟨m, hm, _, h3⟩ => by
        have h4 : Atoi ((demoForm "4").Get "game_mode") = .ok 4 := rfl
        rw [h4] at hm
        injection hm with hm
        omega)).1,
    by decide⟩

/-! ## The settings form: the list chosen for a mode -/

/-- C11: the chain of `updateSettings` appends the identifier of the saved request to
exactly one list and leaves the other three as they were, but the list is Standard
for mode 0, Mania for mode 1, Taiko for mode 2 and CTB for mode 3, while
`allOsuModes` names mode 1 "osu!taiko", mode 2 "osu!catch" and mode 3 "osu!mania".
On the form `game_mode=1` for a player that is not in the database the osu! API is
queried with mode "1", and the player record then saved has the identifier of the
request in its Mania list and an empty Taiko list: the list of the mode named
`allOsuModes[1]` is empty. -/
theorem updateSettings_mode_bucket :
    (∀ (p : OsuPlayer) (id : ObjectId),
      (appendCheck p 0 id).Modes =
          { p.Modes with Standard := ⟨p.Modes.Standard.Checks ++ [id]⟩ } ∧
        (appendCheck p 1 id).Modes = { p.Modes with Mania := ⟨p.Modes.Mania.Checks ++ [id]⟩ } ∧
        (appendCheck p 2 id).Modes = { p.Modes with Taiko := ⟨p.Modes.Taiko.Checks ++ [id]⟩ } ∧
        (appendCheck p 3 id).Modes = { p.Modes with CTB := ⟨p.Modes.CTB.Checks ++ [id]⟩ }) ∧
      allOsuModes[1]? = some "osu!taiko" ∧ allOsuModes[2]? = some "osu!catch" ∧
      allOsuModes[3]? = some "osu!mania" ∧
      (updateSettings demoSettingsEnv (demoSettingsRequest "1")).trace.head? =
        some (.GetUser "peppy" "1") ∧
      modesAfterAppend (updateSettings demoSettingsEnv (demoSettingsRequest "1")).trace =
        some { Standard := ⟨[]⟩, Mania := ⟨[⟨[2]⟩]⟩, Taiko := ⟨[]⟩, CTB := ⟨[]⟩ } ∧
      (modesAfterAppend (updateSettings demoSettingsEnv (demoSettingsRequest "1")).trace).bind
        (checksOfModeName "osu!taiko") = some ⟨[]⟩ ∧
      (modesAfterAppend (updateSettings demoSettingsEnv (demoSettingsRequest "1")).trace).bind
        (checksOfModeName "osu!mania") = some ⟨[⟨[2]⟩]⟩ := by
  refine ⟨fun p id => ⟨rfl, rfl, rfl, rfl⟩, by decide, by decide, by decide, rfl, by decide,
    by decide, by decide⟩

end Prosu
